import Mathlib

/-!
Shallow embedding of `main_app/models.py` (the "Models Inheritance and
Customization" exercise): the masked credit-card field, the `Room` model,
and the reservation hierarchy (`BaseReservation`, `RegularReservation`,
`SpecialReservation`), together with the calendar-date arithmetic of
Python's `datetime.date` that those methods use.

Conventions of the embedding:
* A Python `datetime.date` is the structure `Date` (year, month, day).
  Comparison of dates is lexicographic on (year, month, day), and
  subtraction / `timedelta(days=k)` addition go through the proleptic
  Gregorian ordinal, exactly as in CPython's `datetime` module
  (`toordinal` / `fromordinal`).
* The Django record store of a model class is a `List` of its records:
  `objects.filter(...)` is `List.filter`, `queryset.exists()` is
  non-emptiness, and the framework-level `super().save()` appends the
  record to the store.  Each method that touches the store takes the
  store as an explicit argument and returns the (possibly unchanged)
  store, so frame properties are visible in the result.
* `DecimalField` values and the `float` arithmetic of
  `calculate_total_cost` are embedded in `ℚ`; Python's `round(x, 1)` is
  rounding half-to-even at one decimal place (`pyRound1`).
* A raised `ValidationError` is the `Except.error` branch carrying a
  constructor of `ValidationError`; `ValidationError.messageOf` records
  the literal message string raised by the source at that site.
* `SpecialReservation.extend_reservation` raises a runtime
  `AttributeError` (not a `ValidationError`): its manager lookup
  `SpecialReservation.__class__.objects` resolves `objects` on the
  metaclass `ModelBase`, which has no such attribute.  Its result type
  therefore uses `PyExn`, which distinguishes the two exception kinds.
-/

/-- Python `datetime.date`: a calendar date (no time-of-day). -/
structure Date where
  year : Nat
  month : Nat
  day : Nat
deriving DecidableEq, Repr

/-- Python date comparison `a <= b`: lexicographic on (year, month, day). -/
def Date.ble (a b : Date) : Bool :=
  decide (a.year < b.year ∨ (a.year = b.year ∧
    (a.month < b.month ∨ (a.month = b.month ∧ a.day ≤ b.day))))

/-- Python date comparison `a >= b`. -/
def Date.bge (a b : Date) : Bool :=
  Date.ble b a

/-- Gregorian leap-year test (as in CPython `datetime._is_leap`). -/
def Date.isLeap (y : Nat) : Bool :=
  y % 4 == 0 && (y % 100 != 0 || y % 400 == 0)

/-- Number of days in month `m` of year `y` (CPython `_days_in_month`). -/
def Date.daysInMonth (y m : Nat) : Nat :=
  if m == 2 then (if Date.isLeap y then 29 else 28)
  else if m == 4 || m == 6 || m == 9 || m == 11 then 30
  else 31

/-- Days in year `y` preceding the first of month `m`
(CPython `_days_before_month`). -/
def Date.daysBeforeMonth (y m : Nat) : Nat :=
  ((List.range' 1 (m - 1)).map (Date.daysInMonth y)).sum

/-- Days before January 1st of year `y` in the proleptic Gregorian
calendar (CPython `_days_before_year`). -/
def Date.daysBeforeYear (y : Nat) : Nat :=
  (y - 1) * 365 + (y - 1) / 4 - (y - 1) / 100 + (y - 1) / 400

/-- CPython `date.toordinal`: day number with 0001-01-01 as day 1. -/
def Date.toOrdinal (d : Date) : Nat :=
  Date.daysBeforeYear d.year + Date.daysBeforeMonth d.year d.month + d.day

/-- CPython `date.fromordinal` (`_ord2ymd`): inverse of `toOrdinal` on
valid dates, via the 400/100/4/1-year cycle decomposition. -/
def Date.fromOrdinal (n : Nat) : Date :=
  let n0 := n - 1
  let n400 := n0 / 146097
  let r400 := n0 % 146097
  let n100 := r400 / 36524
  let r100 := r400 % 36524
  let n4 := r100 / 1461
  let r4 := r100 % 1461
  let n1 := r4 / 365
  let r1 := r4 % 365
  let year := n400 * 400 + 1 + n100 * 100 + n4 * 4 + n1
  if n1 == 4 || n100 == 4 then ⟨year - 1, 12, 31⟩
  else
    let month := (r1 + 50) / 32
    let preceding := Date.daysBeforeMonth year month
    if r1 < preceding then
      ⟨year, month - 1, r1 - (preceding - Date.daysInMonth year (month - 1)) + 1⟩
    else
      ⟨year, month, r1 - preceding + 1⟩

/-- Python `d + timedelta(days=k)`. -/
def Date.addDays (d : Date) (k : Int) : Date :=
  Date.fromOrdinal ((Date.toOrdinal d : Int) + k).toNat

/-- Python `(a - b).days` for dates: difference of ordinals. -/
def Date.subDays (a b : Date) : Int :=
  (Date.toOrdinal a : Int) - (Date.toOrdinal b : Int)

/-- The `ValidationError`s raised in `models.py`, one constructor per
`raise` site. -/
inductive ValidationError where
  | cardNotAString
  | cardNotNumeric
  | cardWrongLength
  | guestsExceedCapacity
  | badDateOrder
  | roomUnavailable (number : String)
  | errorDuringExtending
deriving DecidableEq, Repr

/-- The literal message string each `raise ValidationError(...)` site in
`models.py` passes. -/
def ValidationError.messageOf : ValidationError → String
  | .cardNotAString => "The card number must be a string"
  | .cardNotNumeric => "The card number must contain only digits"
  | .cardWrongLength => "The card number must be exactly 16 characters long"
  | .guestsExceedCapacity => "Total guests are more than the capacity of the room"
  | .badDateOrder => "Start date cannot be after or in the same end date"
  | .roomUnavailable number => "Room " ++ number ++ " cannot be reserved"
  | .errorDuringExtending => "Error during extending reservation"

/-- A Python exception escaping a model method: a raised
`ValidationError`, or a runtime `AttributeError` from a failed attribute
lookup (carrying the attribute name). -/
inductive PyExn where
  | validationError (e : ValidationError)
  | attributeError (attr : String)
deriving DecidableEq, Repr

/-- A Python value handed to a field's `to_python`: a `str` (as its
character list) or a non-string value. -/
inductive PyValue where
  | pyStr (s : List Char)
  | pyInt (n : Int)
  | pyNone
deriving DecidableEq, Repr

/-- Python `str.isnumeric` restricted to ASCII digit strings: true iff
the string is non-empty and every character is a digit. -/
def strIsnumeric (s : List Char) : Bool :=
  !s.isEmpty && s.all Char.isDigit

/-- `MaskedCreditCardField.to_python`: validates that the value is a
string of exactly 16 digits and returns
`'****-****-****-' + value[-4:]`; otherwise raises. -/
def MaskedCreditCardField.to_python (value : PyValue) : Except ValidationError (List Char) :=
  match value with
  | .pyStr s =>
    if !(strIsnumeric s) then .error .cardNotNumeric
    else if s.length ≠ 16 then .error .cardWrongLength
    else .ok ("****-****-****-".toList ++ s.drop (s.length - 4))
  | _ => .error .cardNotAString

/-- The `Room` model: hotel foreign key (as an id), room number,
capacity, requested guests, nightly price. -/
structure Room where
  hotel : Nat
  number : String
  capacity : Nat
  total_guests : Nat
  price_per_night : ℚ
deriving DecidableEq, Repr

/-- `Room.clean`: total guests must not exceed capacity. -/
def Room.clean (self : Room) : Except ValidationError Unit :=
  if self.total_guests > self.capacity then .error .guestsExceedCapacity
  else .ok ()

/-- `Room.save`: runs `clean`, then `super().save()` (appends to the
store) and returns the success message.  The store is returned
unchanged when `clean` raises. -/
def Room.save (db : List Room) (self : Room) : List Room × Except ValidationError String :=
  match Room.clean self with
  | .error e => (db, .error e)
  | .ok _ => (db ++ [self], .ok ("Room " ++ self.number ++ " created successfully"))

/-- A `BaseReservation` record: room foreign key, start and end dates. -/
structure Reservation where
  room : Room
  start_date : Date
  end_date : Date
deriving DecidableEq, Repr

/-- `BaseReservation.reservation_period`: `(end_date - start_date).days`. -/
def BaseReservation.reservation_period (self : Reservation) : Int :=
  Date.subDays self.end_date self.start_date

/-- Rounding half-to-even of a rational to an integer (the rounding of
Python's `round`). -/
def roundHalfEven (q : ℚ) : Int :=
  let f := ⌊q⌋
  let r := q - (f : ℚ)
  if r < 1 / 2 then f
  else if 1 / 2 < r then f + 1
  else if f % 2 = 0 then f else f + 1

/-- Python `round(x, 1)` on the exact rational value of `x`. -/
def pyRound1 (q : ℚ) : ℚ :=
  (roundHalfEven (10 * q) : ℚ) / 10

/-- `BaseReservation.calculate_total_cost`: note the source computes the
period as `self.end_date.day - self.start_date.day` (day-of-month
subtraction), then multiplies by `float(price_per_night)` and applies
`round(_, 1)`. -/
def BaseReservation.calculate_total_cost (self : Reservation) : ℚ :=
  let reservation_period : Int := (self.end_date.day : Int) - (self.start_date.day : Int)
  let total_price : ℚ := (reservation_period : ℚ) * self.room.price_per_night
  pyRound1 total_price

/-- `BaseReservation.is_available`: filters the class's store for
records on the same room with `end_date >= self.start_date` and
`start_date <= self.end_date`; true iff none exists. -/
def BaseReservation.is_available (db : List Reservation) (self : Reservation) : Bool :=
  let reservations := db.filter (fun x =>
    decide (x.room = self.room) && Date.ble self.start_date x.end_date &&
      Date.ble x.start_date self.end_date)
  reservations.isEmpty

/-- `BaseReservation.clean`: start must be strictly before end, then the
room must be available. -/
def BaseReservation.clean (db : List Reservation) (self : Reservation) : Except ValidationError Unit :=
  if Date.bge self.start_date self.end_date then .error .badDateOrder
  else if !(BaseReservation.is_available db self) then
    .error (.roomUnavailable self.room.number)
  else .ok ()

/-- `RegularReservation.save`: runs `clean`, then `super().save()`
(appends to the regular-reservation store), returning the confirmation
string. -/
def RegularReservation.save (db : List Reservation) (self : Reservation) :
    List Reservation × Except ValidationError String :=
  match BaseReservation.clean db self with
  | .error e => (db, .error e)
  | .ok _ => (db ++ [self], .ok ("Regular reservation for room " ++ self.room.number))

/-- `SpecialReservation.save`: runs `clean` only — it never calls the
framework save, so the store is returned untouched.  (The source even
returns the string "Regular reservation for room …" here.) -/
def SpecialReservation.save (db : List Reservation) (self : Reservation) :
    List Reservation × Except ValidationError String :=
  match BaseReservation.clean db self with
  | .error e => (db, .error e)
  | .ok _ => (db, .ok ("Regular reservation for room " ++ self.room.number))

/-- The queryset the claim (and the spec) say `extend_reservation`
builds: records on the same room with `end_date >= self.start_date` and
`start_date <= self.end_date + timedelta(days=days)`.  This definition
follows the claim's words — it is stated only to be compared with the
source, which never performs the query (see
`SpecialReservation.extend_reservation`). -/
def extendQuery (db : List Reservation) (self : Reservation) (days : Int) :
    List Reservation :=
  db.filter (fun x =>
    decide (x.room = self.room) && Date.ble self.start_date x.end_date &&
      Date.ble x.start_date (Date.addDays self.end_date days))

/-- `SpecialReservation.extend_reservation(days)`: the method's first
statement builds the callable `SpecialReservation.__class__.objects.filter`.
Python resolves the attribute chain before evaluating any argument, and
`SpecialReservation.__class__` is the metaclass `ModelBase`; neither
`ModelBase` nor its own metaclass defines `objects` (managers are
installed on each concrete model class, never on the metaclass), so the
lookup raises `AttributeError: objects` unconditionally — before the
filter kwargs (including `self.end_date + timedelta(days=days)`) are
computed, before `end_date` is mutated, and before `self.save()` is
reached.  The store and the record are returned unchanged with the
exception. -/
def SpecialReservation.extend_reservation (db : List Reservation) (self : Reservation)
    (days : Int) : List Reservation × Reservation × Except PyExn String :=
  (db, self, .error (.attributeError "objects"))

/-- Fixture: a concrete room. -/
def sampleRoom : Room :=
  { hotel := 1, number := "101", capacity := 4, total_guests := 2, price_per_night := 100 }

/-- Fixture: a concrete well-formed reservation on `sampleRoom`. -/
def sampleRes : Reservation :=
  { room := sampleRoom, start_date := ⟨2023, 1, 1⟩, end_date := ⟨2023, 1, 5⟩ }

/-- Fixture: a later, non-overlapping reservation on `sampleRoom`. -/
def laterRes : Reservation :=
  { room := sampleRoom, start_date := ⟨2023, 2, 1⟩, end_date := ⟨2023, 2, 5⟩ }

/-- Fixture: a reservation crossing a month boundary (Jan 30 → Feb 2). -/
def costResCrossMonth : Reservation :=
  { room := sampleRoom, start_date := ⟨2023, 1, 30⟩, end_date := ⟨2023, 2, 2⟩ }

/-- Fixture: a reservation within one month (May 10 → May 15). -/
def costResInMonth : Reservation :=
  { room := sampleRoom, start_date := ⟨2023, 5, 10⟩, end_date := ⟨2023, 5, 15⟩ }

/-- Fixture: an existing special reservation on `sampleRoom`. -/
def extExisting : Reservation :=
  { room := sampleRoom, start_date := ⟨2023, 5, 1⟩, end_date := ⟨2023, 5, 10⟩ }

/-- Fixture: a special reservation whose extension is attempted. -/
def extSelf : Reservation :=
  { room := sampleRoom, start_date := ⟨2023, 5, 2⟩, end_date := ⟨2023, 5, 8⟩ }

/-- Fixture: a room whose guests fit its capacity. -/
def roomFits : Room :=
  { hotel := 1, number := "102", capacity := 2, total_guests := 2, price_per_night := 50 }

theorem date_roundtrip_check :
    Date.fromOrdinal (Date.toOrdinal ⟨2023, 5, 8⟩) = ⟨2023, 5, 8⟩ ∧
    Date.addDays ⟨2023, 5, 8⟩ 1 = ⟨2023, 5, 9⟩ ∧
    Date.addDays ⟨2023, 1, 30⟩ 3 = ⟨2023, 2, 2⟩ ∧
    Date.addDays ⟨2024, 2, 28⟩ 1 = ⟨2024, 2, 29⟩ ∧
    Date.addDays ⟨2023, 12, 31⟩ 1 = ⟨2024, 1, 1⟩ := by
  decide

theorem Date.ble_of_bge_eq_false {a b : Date} (h : Date.bge a b = false) :
    Date.ble a b = true := by
  simp only [Date.bge, Date.ble, decide_eq_true_eq, decide_eq_false_iff_not] at h ⊢
  omega

theorem is_available_eq_false_iff (db : List Reservation) (self : Reservation) :
    BaseReservation.is_available db self = false ↔
      ∃ x ∈ db, x.room = self.room ∧ Date.ble self.start_date x.end_date = true ∧
        Date.ble x.start_date self.end_date = true := by
  unfold BaseReservation.is_available
  rw [Bool.eq_false_iff, ne_eq, List.isEmpty_iff, List.filter_eq_nil_iff]
  push_neg
  simp [and_assoc]

/-- C1: `BaseReservation.clean` raises the bad-date-order error iff
`start_date >= end_date`; with ordered dates it raises the
room-unavailable error iff some record in the store is on the same room
and its range intersects the new range inclusively (equivalently,
`is_available` is false); and it succeeds otherwise. -/
theorem clean_characterization (db : List Reservation) (self : Reservation) :
    (BaseReservation.clean db self = .error .badDateOrder ↔
      Date.bge self.start_date self.end_date = true)
    ∧ (Date.bge self.start_date self.end_date = false →
        (BaseReservation.clean db self = .error (.roomUnavailable self.room.number) ↔
          ∃ x ∈ db, x.room = self.room ∧ Date.ble self.start_date x.end_date = true ∧
            Date.ble x.start_date self.end_date = true))
    ∧ (Date.bge self.start_date self.end_date = false →
        (BaseReservation.clean db self = .ok () ↔
          BaseReservation.is_available db self = true)) := by
  refine ⟨?_, ?_, ?_⟩
  · rcases hb : Date.bge self.start_date self.end_date with _ | _ <;>
      rcases ha : BaseReservation.is_available db self with _ | _ <;>
      simp [BaseReservation.clean, hb, ha]
  · intro hb
    rw [← is_available_eq_false_iff db self]
    rcases ha : BaseReservation.is_available db self with _ | _ <;>
      simp [BaseReservation.clean, hb, ha]
  · intro hb
    rcases ha : BaseReservation.is_available db self with _ | _ <;>
      simp [BaseReservation.clean, hb, ha]

/-- C1 witness: on an empty store, a well-ordered reservation passes
`clean`. -/
theorem clean_characterization_witness :
    BaseReservation.clean [] sampleRes = .ok () :=
  ((clean_characterization [] sampleRes).2.2 (by decide)).2 (by decide)

theorem roundHalfEven_intCast (n : Int) : roundHalfEven ((n : ℚ)) = n := by
  unfold roundHalfEven
  rw [Int.floor_intCast]
  norm_num

theorem pyRound1_intCast (n : Int) : pyRound1 ((n : ℚ)) = (n : ℚ) := by
  unfold pyRound1
  have h : (10 : ℚ) * (n : ℚ) = ((10 * n : Int) : ℚ) := by push_cast; ring
  rw [h, roundHalfEven_intCast]
  push_cast
  rw [mul_comm, mul_div_assoc]
  norm_num

/-- C2: divergence of `calculate_total_cost` from calendar-day
subtraction.  For the reservation Jan 30 → Feb 2 the calendar duration
(`reservation_period`) is 3 days, so at a nightly price of 100 the
claimed cost is 300.0; the code instead computes
`end_date.day - start_date.day = 2 - 30 = -28` and returns -2800.0.
Within a single month (May 10 → May 15, 5 days) the code does return
500.0, matching the claim's example. -/
theorem cost_day_subtraction_divergence :
    BaseReservation.calculate_total_cost costResCrossMonth = -2800 ∧
    BaseReservation.reservation_period costResCrossMonth = 3 ∧
    pyRound1 ((3 : ℚ) * sampleRoom.price_per_night) = 300 ∧
    BaseReservation.calculate_total_cost costResInMonth = 500 := by
  refine ⟨?_, by decide, ?_, ?_⟩
  · have h : BaseReservation.calculate_total_cost costResCrossMonth =
        pyRound1 ((-2800 : Int) : ℚ) := by
      norm_num [BaseReservation.calculate_total_cost, costResCrossMonth, sampleRoom]
    rw [h, pyRound1_intCast]
    norm_num
  · have h : (3 : ℚ) * sampleRoom.price_per_night = ((300 : Int) : ℚ) := by
      norm_num [sampleRoom]
    rw [h, pyRound1_intCast]
    norm_num
  · have h : BaseReservation.calculate_total_cost costResInMonth =
        pyRound1 ((500 : Int) : ℚ) := by
      norm_num [BaseReservation.calculate_total_cost, costResInMonth, sampleRoom]
    rw [h, pyRound1_intCast]
    norm_num

/-- C3: for every string of exactly 16 digit characters, `to_python`
returns `"****-****-****-"` followed by its last 4 characters. -/
theorem mask_valid_16_digit (s : List Char) (h16 : s.length = 16)
    (hdig : ∀ c ∈ s, c.isDigit = true) :
    MaskedCreditCardField.to_python (.pyStr s) =
      .ok ("****-****-****-".toList ++ s.drop 12) := by
  have hne : s.isEmpty = false := by
    cases s with
    | nil => simp at h16
    | cons a t => rfl
  have hall : s.all Char.isDigit = true := List.all_eq_true.mpr hdig
  unfold MaskedCreditCardField.to_python strIsnumeric
  simp [hne, hall, h16]

/-- C3 witness: the spec's example card. -/
theorem mask_valid_16_digit_witness :
    MaskedCreditCardField.to_python (.pyStr ("1234567812345678".toList)) =
      .ok ("****-****-****-5678".toList) := by
  rw [mask_valid_16_digit ("1234567812345678".toList) (by decide) (by decide)]
  rfl

/-- C4: `to_python` raises `cardNotAString` on any non-string value,
raises `cardNotNumeric` whenever the string contains a non-digit
character, raises some `ValidationError` whenever the length is not 16,
and in every error case produces no masked value. -/
theorem mask_error_characterization (v : PyValue) :
    ((∀ s, v ≠ .pyStr s) → MaskedCreditCardField.to_python v = .error .cardNotAString)
    ∧ (∀ s, v = .pyStr s → (∃ c ∈ s, c.isDigit = false) →
        MaskedCreditCardField.to_python v = .error .cardNotNumeric)
    ∧ (∀ s, v = .pyStr s → s.length ≠ 16 →
        ∃ e, MaskedCreditCardField.to_python v = .error e)
    ∧ (∀ e, MaskedCreditCardField.to_python v = .error e →
        ∀ r, MaskedCreditCardField.to_python v ≠ .ok r) := by
  refine ⟨?_, ?_, ?_, ?_⟩
  · intro h
    cases v with
    | pyStr s => exact absurd rfl (h s)
    | pyInt n => rfl
    | pyNone => rfl
  · rintro s rfl ⟨c, hc, hcd⟩
    have hall : s.all Char.isDigit = false := by
      rcases h : s.all Char.isDigit with _ | _
      · rfl
      · rw [List.all_eq_true.mp h c hc] at hcd
        exact absurd hcd (by simp)
    simp [MaskedCreditCardField.to_python, strIsnumeric, hall]
  · rintro s rfl h16
    rcases hnum : strIsnumeric s with _ | _
    · exact ⟨.cardNotNumeric, by simp [MaskedCreditCardField.to_python, hnum]⟩
    · exact ⟨.cardWrongLength, by simp [MaskedCreditCardField.to_python, hnum, h16]⟩
  · intro e he r hr
    rw [he] at hr
    exact Except.noConfusion hr

/-- C4 witness: an integer input raises the not-a-string error. -/
theorem mask_error_characterization_witness :
    MaskedCreditCardField.to_python (.pyInt 0) = .error .cardNotAString :=
  (mask_error_characterization (.pyInt 0)).1 (fun _ h => PyValue.noConfusion h)

/-- C5 counterexample: masking the spec's example card succeeds, but
re-applying `to_python` to the masked result raises the
not-numeric `ValidationError` instead of returning it unchanged. -/
theorem remask_raises_counterexample :
    MaskedCreditCardField.to_python (.pyStr ("1234567812345678".toList)) =
      .ok ("****-****-****-5678".toList) ∧
    MaskedCreditCardField.to_python (.pyStr ("****-****-****-5678".toList)) =
      .error .cardNotNumeric :=
  ⟨rfl, rfl⟩

/-- C5 amended: re-applying `to_python` to any value it ever returns
raises the not-numeric error (the mask prefix contains non-digits), so
the normalization is not idempotent on masked values. -/
theorem remask_raises (v : PyValue) (r : List Char)
    (h : MaskedCreditCardField.to_python v = .ok r) :
    MaskedCreditCardField.to_python (.pyStr r) = .error .cardNotNumeric := by
  cases v with
  | pyStr s =>
    rcases hnum : strIsnumeric s with _ | _
    · simp [MaskedCreditCardField.to_python, hnum] at h
    · by_cases h16 : s.length = 16
      · have h' : MaskedCreditCardField.to_python (.pyStr s) =
            .ok ("****-****-****-".toList ++ s.drop (s.length - 4)) := by
          simp [MaskedCreditCardField.to_python, hnum, h16]
        rw [h'] at h
        injection h with hr
        subst hr
        have hall : (("****-****-****-".toList ++ s.drop (s.length - 4)).all
            Char.isDigit) = false := by
          rw [List.all_append]
          have hpref : ("****-****-****-".toList).all Char.isDigit = false := by decide
          simp [hpref]
        simp [MaskedCreditCardField.to_python, strIsnumeric, hall]
      · simp [MaskedCreditCardField.to_python, hnum, h16] at h
  | pyInt n => simp [MaskedCreditCardField.to_python] at h
  | pyNone => simp [MaskedCreditCardField.to_python] at h

/-- C5 amended witness: the masked form of the spec's example card is
rejected as non-numeric on re-normalization. -/
theorem remask_raises_witness :
    MaskedCreditCardField.to_python (.pyStr ("****-****-****-5678".toList)) =
      .error .cardNotNumeric :=
  remask_raises (.pyStr ("1234567812345678".toList)) ("****-****-****-5678".toList) rfl

/-- C6: `Room.save` raises `guestsExceedCapacity` iff
`total_guests > capacity`, leaves the store unchanged in that case, and
otherwise appends the room to the store and returns the success message,
which contains the room number. -/
theorem room_save_characterization (db : List Room) (self : Room) :
    ((Room.save db self).2 = .error .guestsExceedCapacity ↔
      self.total_guests > self.capacity)
    ∧ (self.total_guests > self.capacity → (Room.save db self).1 = db)
    ∧ (¬ self.total_guests > self.capacity →
        Room.save db self = (db ++ [self],
          .ok ("Room " ++ self.number ++ " created successfully")))
    ∧ (∃ pre suf : String,
        "Room " ++ self.number ++ " created successfully" = pre ++ self.number ++ suf) := by
  refine ⟨?_, ?_, ?_, ⟨"Room ", " created successfully", rfl⟩⟩ <;>
    by_cases h : self.total_guests > self.capacity <;>
    simp [Room.save, Room.clean, h]

/-- C6 witness: the spec's in-capacity example room persists with the
success message. -/
theorem room_save_characterization_witness :
    Room.save [] roomFits =
      ([roomFits], .ok ("Room " ++ roomFits.number ++ " created successfully")) :=
  (room_save_characterization [] roomFits).2.2.1 (by decide)

/-- C7: `RegularReservation.save` validates then persists: starting from
an empty store, a well-ordered reservation saves successfully with its
confirmation string; a second reservation on the same room then fails
with the room-unavailable error when the inclusive ranges overlap, and
saves successfully when they do not. -/
theorem regular_save_two_reservations (r1 r2 : Reservation)
    (hroom : r1.room = r2.room)
    (h1 : Date.bge r1.start_date r1.end_date = false)
    (h2 : Date.bge r2.start_date r2.end_date = false) :
    RegularReservation.save [] r1 =
      ([r1], .ok ("Regular reservation for room " ++ r1.room.number))
    ∧ (Date.ble r2.start_date r1.end_date = true →
        Date.ble r1.start_date r2.end_date = true →
        RegularReservation.save [r1] r2 = ([r1], .error (.roomUnavailable r2.room.number)))
    ∧ ((Date.ble r2.start_date r1.end_date && Date.ble r1.start_date r2.end_date) = false →
        RegularReservation.save [r1] r2 =
          ([r1, r2], .ok ("Regular reservation for room " ++ r2.room.number))) := by
  refine ⟨?_, ?_, ?_⟩
  · simp [RegularReservation.save, BaseReservation.clean, BaseReservation.is_available, h1]
  · intro hov1 hov2
    have hav : BaseReservation.is_available [r1] r2 = false := by
      simp [BaseReservation.is_available, List.filter_cons, hroom, hov1, hov2]
    simp [RegularReservation.save, BaseReservation.clean, h2, hav]
  · intro hov
    have hav : BaseReservation.is_available [r1] r2 = true := by
      simp [BaseReservation.is_available, List.filter_cons, hroom, hov]
    simp [RegularReservation.save, BaseReservation.clean, h2, hav]

/-- C7 witness: two non-overlapping reservations on the same room both
save successfully. -/
theorem regular_save_two_reservations_witness :
    RegularReservation.save [] sampleRes =
      ([sampleRes], .ok ("Regular reservation for room " ++ sampleRes.room.number))
    ∧ RegularReservation.save [sampleRes] laterRes =
      ([sampleRes, laterRes],
        .ok ("Regular reservation for room " ++ laterRes.room.number)) :=
  ⟨(regular_save_two_reservations sampleRes laterRes rfl (by decide) (by decide)).1,
   (regular_save_two_reservations sampleRes laterRes rfl (by decide) (by decide)).2.2
     (by decide)⟩

/-- C8: `SpecialReservation.save` never touches the store, and when
`clean` passes it returns its confirmation string with the store exactly
as given. -/
theorem special_save_validation_only (db : List Reservation) (self : Reservation) :
    ((SpecialReservation.save db self).1 = db)
    ∧ (BaseReservation.clean db self = .ok () →
        SpecialReservation.save db self =
          (db, .ok ("Regular reservation for room " ++ self.room.number))) := by
  constructor
  · rcases h : BaseReservation.clean db self with e | u <;> simp [SpecialReservation.save, h]
  · intro h
    simp [SpecialReservation.save, h]

/-- C8 witness: a valid special reservation validates and returns its
string while the (empty) store stays empty. -/
theorem special_save_validation_only_witness :
    SpecialReservation.save [] sampleRes =
      ([], .ok ("Regular reservation for room " ++ sampleRes.room.number)) :=
  (special_save_validation_only [] sampleRes).2 rfl

/-- C10: a stored reservation with ordered dates overlaps itself, so
`is_available` is false on it; hence a successful `RegularReservation.save`
cannot be repeated: the second call raises the room-unavailable error
and leaves the store as it was. -/
theorem regular_save_not_repeatable (db : List Reservation) (r : Reservation) :
    (r ∈ db → Date.ble r.start_date r.end_date = true →
      BaseReservation.is_available db r = false)
    ∧ (∀ db2 m, RegularReservation.save db r = (db2, .ok m) →
        RegularReservation.save db2 r = (db2, .error (.roomUnavailable r.room.number))) := by
  constructor
  · intro hmem hle
    rw [is_available_eq_false_iff]
    exact ⟨r, hmem, rfl, hle, hle⟩
  · intro db2 m h
    rcases hc : BaseReservation.clean db r with e | u
    · simp [RegularReservation.save, hc] at h
    · simp [RegularReservation.save, hc] at h
      obtain ⟨h1, h2⟩ := h
      subst h1
      have hbge : Date.bge r.start_date r.end_date = false := by
        rcases hb : Date.bge r.start_date r.end_date with _ | _
        · rfl
        · simp [BaseReservation.clean, hb] at hc
      have hle : Date.ble r.start_date r.end_date = true := Date.ble_of_bge_eq_false hbge
      have hav : BaseReservation.is_available (db ++ [r]) r = false := by
        rw [is_available_eq_false_iff]
        exact ⟨r, by simp, rfl, hle, hle⟩
      simp [RegularReservation.save, BaseReservation.clean, hbge, hav]

/-- C10 witness: saving the same reservation twice — the second call
raises the room-unavailable error. -/
theorem regular_save_not_repeatable_witness :
    RegularReservation.save [sampleRes] sampleRes =
      ([sampleRes], .error (.roomUnavailable sampleRes.room.number)) :=
  (regular_save_not_repeatable [] sampleRes).2 [sampleRes]
    ("Regular reservation for room " ++ sampleRes.room.number) rfl

/-- C9 counterexample: with one overlapping special reservation stored,
the query the claim describes has a match — so the claim demands that
the call extend `end_date`, persist, and return its confirmation string
— yet `extend_reservation` returns the `AttributeError` from its
manager lookup, with the record's `end_date` and the store unchanged;
it raises no `ValidationError` either, refuting the claim's
raises-iff-empty biconditional as well. -/
theorem extend_reservation_counterexample :
    (extendQuery [extExisting] extSelf 1).isEmpty = false
    ∧ SpecialReservation.extend_reservation [extExisting] extSelf 1 =
        ([extExisting], extSelf, .error (.attributeError "objects")) :=
  ⟨rfl, rfl⟩

/-- C9 amended: `extend_reservation` never performs its overlap query:
its manager lookup `SpecialReservation.__class__.objects` resolves on
the metaclass `ModelBase`, which has no `objects` attribute, so every
call raises `AttributeError` — the store and the record (in particular
its `end_date`) are unchanged, and neither the extension
`ValidationError` nor the confirmation string is ever produced. -/
theorem extend_reservation_attribute_error (db : List Reservation) (self : Reservation)
    (days : Int) :
    SpecialReservation.extend_reservation db self days =
      (db, self, .error (.attributeError "objects")) :=
  rfl
